import Mathlib

/-!
Shallow embedding of the DXF stream scanner of this repository
(`src/DxfStreamScanner.ts`) together with the error taxonomy of its
errors module, and proofs of the specification claims about them.

Modelling conventions:
* JavaScript numbers that hold group codes are modelled as `Option Int`
  with `none` standing for `NaN` (the result of `parseInt` on a string
  without a leading integer literal).
* The results of the host numeric parsers `parseFloat` / `parseInt`
  applied to a raw value string are kept symbolic: the constructors
  `TypedValue.float` and `TypedValue.int` record the raw string handed
  to the host parser.  The claims under verification only concern the
  category of a coerced value, never its numeric magnitude.
* Indexing a JavaScript array out of range yields `undefined`;
  `parseInt(undefined)` is `NaN`, and calling `.trim()` on `undefined`
  raises a `TypeError`, modelled by the distinguished error
  `DxfError.jsTypeError`.
* Throwing an exception from a method leaves the mutated fields of the
  object in place, so the stateful methods return the updated state on
  both the success and the error path.
-/

/-- The coerced value of a group, mirroring the TS union
`number | string | boolean` while keeping host numeric parses symbolic. -/
inductive TypedValue where
  | str (s : String)
  | float (raw : String)
  | int (raw : String)
  | bool (b : Bool)
deriving DecidableEq, Repr

/-- The DXF error taxonomy of the errors module: `DxfParseError`,
`DxfScannerError`, `DxfValueError`; `jsTypeError` models the JavaScript
runtime `TypeError` raised by `undefined.trim()`. The `cause` of a parse
error is modelled by the message of the wrapped error. -/
inductive DxfError where
  | parseError (message : String) (line : Option Int) (sectionName : Option String)
      (cause : Option String)
  | scannerError (message : String) (pointer : Int) (groupCode : Option Int)
      (groupValue : Option String)
  | valueError (message : String) (code : Int) (rawValue : String)
      (expectedType : Option String)
  | jsTypeError
deriving DecidableEq, Repr

/-- True exactly on the `DxfScannerError` kind. -/
def DxfError.isScanner : DxfError → Bool
  | .scannerError _ _ _ _ => true
  | _ => false

/-- True exactly on the `DxfValueError` kind. -/
def DxfError.isValue : DxfError → Bool
  | .valueError _ _ _ _ => true
  | _ => false

deriving instance DecidableEq for Except

/-- `IGroup`: one `(code, value)` pair as produced by the scanner. -/
structure IGroup where
  code : Option Int
  value : TypedValue
deriving DecidableEq, Repr

/-- State of `DxfStreamScanner`: trailing partial-line buffer, completed
lines, `_pointer`, `_eof`, `_lineNumber`, `lastReadGroup` (initially
`undefined`, hence `Option`). The pointer is an `Int` because `rewind`
can drive it negative. -/
structure DxfStreamScanner where
  buffer : String
  lines : List String
  pointer : Int
  eof : Bool
  lineNumber : Int
  lastReadGroup : Option IGroup
deriving DecidableEq, Repr

/-- A freshly constructed scanner. -/
def initialScanner : DxfStreamScanner :=
  { buffer := "", lines := [], pointer := 0, eof := false, lineNumber := 0,
    lastReadGroup := none }

/-- Accumulate a decimal digit list into a natural number. -/
def digitsToNat : List Char → Nat → Nat
  | [], acc => acc
  | c :: rest, acc => digitsToNat rest (acc * 10 + (c.toNat - 48))

/-- JavaScript `parseInt(s)` (radix 10, as used on DXF code lines):
skip leading whitespace, read an optional sign and the longest prefix of
decimal digits; `none` models `NaN` when no digit is found. -/
def jsParseInt (s : String) : Option Int :=
  let cs := s.data.dropWhile (fun c => c.isWhitespace)
  let signAndRest : Int × List Char :=
    match cs with
    | c :: rest =>
      if c = '-' then (-1, rest)
      else if c = '+' then (1, rest)
      else (1, c :: rest)
    | [] => (1, [])
  let ds := signAndRest.2.takeWhile (fun c => c.isDigit)
  if ds.isEmpty then none
  else some (signAndRest.1 * (digitsToNat ds 0 : Int))

/-- JavaScript array indexing: `none` models `undefined` (negative or
out-of-range index). -/
def jsIndex (l : List String) (i : Int) : Option String :=
  if i < 0 then none else l.get? i.toNat

/-- `parseInt(lines[i])`; `parseInt(undefined)` is `NaN` (`none`). -/
def jsParseIntAt (l : List String) (i : Int) : Option Int :=
  match jsIndex l i with
  | some s => jsParseInt s
  | none => none

/-- JavaScript `String.prototype.trim`: strip whitespace from both ends
of the string, modelled over the character list. -/
def jsTrim (s : String) : String :=
  String.mk
    (((s.data.dropWhile (fun c => c.isWhitespace)).reverse.dropWhile
      (fun c => c.isWhitespace)).reverse)

/-- A single apostrophe character, used in the boolean cast message. -/
def squote : String := (Char.ofNat 39).toString

/-- The message of the error thrown by `parseBoolean`:
`Value <q><raw><q> cannot be cast to Boolean type`. -/
def booleanCastMessage (str : String) : String :=
  "Value " ++ squote ++ str ++ squote ++ " cannot be cast to Boolean type"

/-- `DxfStreamScanner.parseBoolean`: accepts exactly `"0"` and `"1"`;
any other literal throws a `DxfParseError` (not a `DxfValueError`)
carrying the current line number. -/
def parseBoolean (str : String) (lineNumber : Int) : Except DxfError TypedValue :=
  if str = "0" then Except.ok (TypedValue.bool false)
  else if str = "1" then Except.ok (TypedValue.bool true)
  else Except.error
    (DxfError.parseError (booleanCastMessage str) (some lineNumber) none none)

/-- `DxfStreamScanner.parseGroupValue`: the range-keyed coercion chain.
A `none` code (`NaN`) fails every numeric comparison and falls through to
the final `return value`. -/
def parseGroupValueBody (c : Int) (value : String) (lineNumber : Int) :
    Except DxfError TypedValue :=
  if c ≤ 9 then Except.ok (TypedValue.str value)
  else if 10 ≤ c ∧ c ≤ 59 then Except.ok (TypedValue.float value)
  else if 60 ≤ c ∧ c ≤ 99 then Except.ok (TypedValue.int value)
  else if 100 ≤ c ∧ c ≤ 109 then Except.ok (TypedValue.str value)
  else if 110 ≤ c ∧ c ≤ 149 then Except.ok (TypedValue.float value)
  else if 160 ≤ c ∧ c ≤ 179 then Except.ok (TypedValue.int value)
  else if 210 ≤ c ∧ c ≤ 239 then Except.ok (TypedValue.float value)
  else if 270 ≤ c ∧ c ≤ 289 then Except.ok (TypedValue.int value)
  else if 290 ≤ c ∧ c ≤ 299 then parseBoolean value lineNumber
  else if 300 ≤ c ∧ c ≤ 369 then Except.ok (TypedValue.str value)
  else if 370 ≤ c ∧ c ≤ 389 then Except.ok (TypedValue.int value)
  else if 390 ≤ c ∧ c ≤ 399 then Except.ok (TypedValue.str value)
  else if 400 ≤ c ∧ c ≤ 409 then Except.ok (TypedValue.int value)
  else if 410 ≤ c ∧ c ≤ 419 then Except.ok (TypedValue.str value)
  else if 420 ≤ c ∧ c ≤ 429 then Except.ok (TypedValue.int value)
  else if 430 ≤ c ∧ c ≤ 439 then Except.ok (TypedValue.str value)
  else if 440 ≤ c ∧ c ≤ 459 then Except.ok (TypedValue.int value)
  else if 460 ≤ c ∧ c ≤ 469 then Except.ok (TypedValue.float value)
  else if 470 ≤ c ∧ c ≤ 481 then Except.ok (TypedValue.str value)
  else if c = 999 then Except.ok (TypedValue.str value)
  else if 1000 ≤ c ∧ c ≤ 1009 then Except.ok (TypedValue.str value)
  else if 1010 ≤ c ∧ c ≤ 1059 then Except.ok (TypedValue.float value)
  else if 1060 ≤ c ∧ c ≤ 1071 then Except.ok (TypedValue.int value)
  else Except.ok (TypedValue.str value)

/-- `DxfStreamScanner.parseGroupValue` on a `NaN` code: every range test
of the chain fails, so it falls through to the string default. -/
def parseGroupValue : Option Int → String → Int → Except DxfError TypedValue
  | none, value, _ => Except.ok (TypedValue.str value)
  | some c, value, lineNumber => parseGroupValueBody c value lineNumber

/-- Split a character list on `\r\n`, `\r` or `\n`, with `\r\n` taking
precedence, exactly like the regex alternation in
`this.buffer.split(/\r\n|\r|\n/)`; never returns the empty list. -/
def splitLinesAux : List Char → List Char → List String
  | [], acc => [String.mk acc.reverse]
  | '\r' :: '\n' :: rest, acc => String.mk acc.reverse :: splitLinesAux rest []
  | '\r' :: rest, acc => String.mk acc.reverse :: splitLinesAux rest []
  | '\n' :: rest, acc => String.mk acc.reverse :: splitLinesAux rest []
  | c :: rest, acc => splitLinesAux rest (c :: acc)

/-- `s.split(/\r\n|\r|\n/)`. -/
def splitOnNewlines (s : String) : List String :=
  splitLinesAux s.data []

/-- `DxfStreamScanner.addChunk`: append the chunk to the trailing buffer,
split, keep the last (possibly incomplete) fragment as the new buffer,
append the complete fragments to `lines`; returns the count of newly
completed lines. -/
def addChunk (st : DxfStreamScanner) (chunk : String) :
    DxfStreamScanner × Nat :=
  let splitLines := splitOnNewlines (st.buffer ++ chunk)
  let newBuffer := splitLines.getLastD ("")
  let complete := splitLines.dropLast
  ({ st with buffer := newBuffer, lines := st.lines ++ complete },
   complete.length)

/-- `DxfStreamScanner.finalize`: flush a non-empty trailing buffer into
`lines` as a final line. -/
def finalize (st : DxfStreamScanner) : DxfStreamScanner :=
  if st.buffer.length > 0 then
    { st with lines := st.lines ++ [st.buffer], buffer := "" }
  else st

/-- `DxfStreamScanner.hasNext`: false after EOF; otherwise requires at
least 2 lines (code + value) from the pointer. -/
def hasNext (st : DxfStreamScanner) : Bool :=
  if st.eof then false
  else st.pointer ≤ (st.lines.length : Int) - 2

/-- `DxfStreamScanner.isEOF`. -/
def isEOF (st : DxfStreamScanner) : Bool :=
  st.eof

/-- `DxfStreamScanner.getCurrentLineNumber`. -/
def getCurrentLineNumber (st : DxfStreamScanner) : Int :=
  st.lineNumber

/-- `DxfStreamScanner.needsData`. -/
def needsData (st : DxfStreamScanner) : Bool :=
  st.lines.length = 0 || st.pointer ≥ (st.lines.length : Int) - 1

/-- Message of the transient insufficient-input error. -/
def transientMessage : String := "Unexpected end of input: need more data"

/-- Message of the terminal next-after-EOF error. -/
def nextAfterEofMessage : String := "Cannot call next after EOF group has been read"

/-- Message of the terminal peek-after-EOF error. -/
def peekAfterEofMessage : String := "Cannot call peek after EOF group has been read"

/-- `DxfStreamScanner.next`: availability / EOF checks, then code from
`lines[pointer]`, advance by one, value from the (trimmed) line at the
advanced pointer, advance again, set `_eof` on the `(0, "EOF")` group and
record `lastReadGroup`. The state is returned on every path because a
thrown exception leaves the mutations in place. -/
def next (st : DxfStreamScanner) : Except DxfError IGroup × DxfStreamScanner :=
  if hasNext st then
    match jsIndex st.lines (st.pointer + 1) with
    | none =>
      (Except.error DxfError.jsTypeError,
       { st with pointer := st.pointer + 1, lineNumber := st.lineNumber + 1 })
    | some valueLine =>
      match parseGroupValue (jsParseIntAt st.lines st.pointer) (jsTrim valueLine)
          (st.lineNumber + 1) with
      | Except.error e =>
        (Except.error e,
         { st with pointer := st.pointer + 1, lineNumber := st.lineNumber + 1 })
      | Except.ok v =>
        (Except.ok { code := jsParseIntAt st.lines st.pointer, value := v },
         { st with
           pointer := st.pointer + 2
           lineNumber := st.lineNumber + 2
           eof := if jsParseIntAt st.lines st.pointer = some 0 ∧
               v = TypedValue.str ("EOF") then true else st.eof
           lastReadGroup := some { code := jsParseIntAt st.lines st.pointer, value := v } })
  else if st.eof then
    (Except.error
      (DxfError.parseError nextAfterEofMessage (some st.lineNumber) none none), st)
  else
    (Except.error
      (DxfError.parseError transientMessage (some st.lineNumber) none none), st)

/-- `DxfStreamScanner.peek`: same checks as `next` but with no state
mutation; value is read from `lines[pointer + 1]`. -/
def peek (st : DxfStreamScanner) : Except DxfError IGroup × DxfStreamScanner :=
  if hasNext st then
    match jsIndex st.lines (st.pointer + 1) with
    | none => (Except.error DxfError.jsTypeError, st)
    | some valueLine =>
      match parseGroupValue (jsParseIntAt st.lines st.pointer) (jsTrim valueLine)
          st.lineNumber with
      | Except.error e => (Except.error e, st)
      | Except.ok v =>
        (Except.ok { code := jsParseIntAt st.lines st.pointer, value := v }, st)
  else if st.eof then
    (Except.error
      (DxfError.parseError peekAfterEofMessage (some st.lineNumber) none none), st)
  else
    (Except.error
      (DxfError.parseError transientMessage (some st.lineNumber) none none), st)

/-- `DxfStreamScanner.rewind`: `pointer -= 2n` with no clamp;
`lineNumber -= 2n` clamped at zero. -/
def rewind (st : DxfStreamScanner) (numberOfGroups : Int) : DxfStreamScanner :=
  let p := st.pointer - numberOfGroups * 2
  let l := st.lineNumber - numberOfGroups * 2
  { st with pointer := p, lineNumber := if l < 0 then 0 else l }

/-- An event emitted by the underlying readable stream. -/
inductive StreamEvent where
  | data (chunk : String)
  | ended
  | errored (message : String)
deriving DecidableEq, Repr

/-- How the promise of `parseStreamIncremental` settles. -/
inductive Settlement where
  | resolved
  | rejected (e : DxfError)
deriving DecidableEq, Repr

/-- The promise state of one `parseStreamIncremental` invocation: the
first call to resolve/reject wins, later calls are ignored, while the
scanner keeps mutating as further events arrive. -/
structure PromiseState where
  settled : Option Settlement
  scanner : DxfStreamScanner
deriving DecidableEq, Repr

/-- `reject(e)`: settles the promise unless it is already settled. -/
def settleReject (ps : PromiseState) (e : DxfError) : PromiseState :=
  { ps with settled := match ps.settled with
      | some s => some s
      | none => some (Settlement.rejected e) }

/-- `resolve()`: settles the promise unless it is already settled. -/
def settleResolve (ps : PromiseState) : PromiseState :=
  { ps with settled := match ps.settled with
      | some s => some s
      | none => some Settlement.resolved }

/-- One of the `while` loops of `parseStreamIncremental`: repeatedly run
the parse callback while `cond` holds; fuel bounds the number of
iterations modelled. A thrown callback error stops the loop and keeps the
scanner state the callback left behind. -/
def driveLoop (cond : DxfStreamScanner → Bool)
    (parseFn : DxfStreamScanner → Except DxfError DxfStreamScanner) :
    Nat → DxfStreamScanner → Except DxfError Unit × DxfStreamScanner
  | 0, st => (Except.ok (), st)
  | fuel + 1, st =>
    if cond st then
      match parseFn st with
      | Except.error e => (Except.error e, st)
      | Except.ok st2 => driveLoop cond parseFn fuel st2
    else (Except.ok (), st)

/-- The three event handlers that `parseStreamIncremental` registers on
the stream: `data` adds the chunk and parses while data suffices and EOF
is unread; `end` finalizes, drains, and resolves; `error` rejects with a
`DxfParseError` whose message is `Stream error` and whose cause is the
transport error. -/
def handleEvent (parseFn : DxfStreamScanner → Except DxfError DxfStreamScanner)
    (fuel : Nat) (ps : PromiseState) : StreamEvent → PromiseState
  | StreamEvent.data chunk =>
    let sc1 := (addChunk ps.scanner chunk).1
    let r := driveLoop (fun st => !needsData st && !isEOF st) parseFn fuel sc1
    match r.1 with
    | Except.error e => settleReject { ps with scanner := r.2 } e
    | Except.ok _ => { ps with scanner := r.2 }
  | StreamEvent.ended =>
    let sc1 := finalize ps.scanner
    let r := driveLoop (fun st => !isEOF st && hasNext st) parseFn fuel sc1
    match r.1 with
    | Except.error e => settleReject { ps with scanner := r.2 } e
    | Except.ok _ => settleResolve { ps with scanner := r.2 }
  | StreamEvent.errored m =>
    settleReject ps (DxfError.parseError ("Stream error") none none (some m))

/-- `parseStreamIncremental`, driven by an explicit list of stream
events: a fresh scanner and an unsettled promise, folded over the
events. -/
def parseStreamIncremental
    (parseFn : DxfStreamScanner → Except DxfError DxfStreamScanner)
    (fuel : Nat) (events : List StreamEvent) : PromiseState :=
  events.foldl (handleEvent parseFn fuel) { settled := none, scanner := initialScanner }

/-- The type category of a coerced value. -/
inductive Category where
  | str
  | float
  | int
  | bool
deriving DecidableEq, Repr

/-- The category a claimed range table assigns to a code, following the
words of the specification: codes 0-9, 100-109, 300-369, 390-399,
410-419, 430-439, 470-481, 999, 1000-1009 are strings; 10-59, 110-149,
210-239, 460-469, 1010-1059 floats; 60-99, 160-179, 270-289, 370-389,
400-409, 420-429, 440-459, 1060-1071 integers; 290-299 booleans; every
unmatched code defaults to string. -/
def claimCategory (c : Int) : Category :=
  if (0 ≤ c ∧ c ≤ 9) ∨ (100 ≤ c ∧ c ≤ 109) ∨ (300 ≤ c ∧ c ≤ 369) ∨
     (390 ≤ c ∧ c ≤ 399) ∨ (410 ≤ c ∧ c ≤ 419) ∨ (430 ≤ c ∧ c ≤ 439) ∨
     (470 ≤ c ∧ c ≤ 481) ∨ c = 999 ∨ (1000 ≤ c ∧ c ≤ 1009) then Category.str
  else if (10 ≤ c ∧ c ≤ 59) ∨ (110 ≤ c ∧ c ≤ 149) ∨ (210 ≤ c ∧ c ≤ 239) ∨
     (460 ≤ c ∧ c ≤ 469) ∨ (1010 ≤ c ∧ c ≤ 1059) then Category.float
  else if (60 ≤ c ∧ c ≤ 99) ∨ (160 ≤ c ∧ c ≤ 179) ∨ (270 ≤ c ∧ c ≤ 289) ∨
     (370 ≤ c ∧ c ≤ 389) ∨ (400 ≤ c ∧ c ≤ 409) ∨ (420 ≤ c ∧ c ≤ 429) ∨
     (440 ≤ c ∧ c ≤ 459) ∨ (1060 ≤ c ∧ c ≤ 1071) then Category.int
  else if 290 ≤ c ∧ c ≤ 299 then Category.bool
  else Category.str

/-- Coercion as worded by the claim, indexed by category: strings pass
through; floats and integers are the host parses of the raw string;
booleans accept exactly the literals `0` and `1` and fail otherwise. -/
def tableCoerce (cat : Category) (raw : String) (lineNumber : Int) :
    Except DxfError TypedValue :=
  match cat with
  | Category.str => Except.ok (TypedValue.str raw)
  | Category.float => Except.ok (TypedValue.float raw)
  | Category.int => Except.ok (TypedValue.int raw)
  | Category.bool =>
    if raw = "0" then Except.ok (TypedValue.bool false)
    else if raw = "1" then Except.ok (TypedValue.bool true)
    else Except.error
      (DxfError.parseError (booleanCastMessage raw) (some lineNumber) none none)

/-- One scanner operation, used to state lifecycle invariants. -/
inductive ScannerOp where
  | addChunkOp (chunk : String)
  | finalizeOp
  | nextOp
  | peekOp
  | rewindOp (n : Int)
deriving DecidableEq, Repr

/-- Apply one operation to a scanner state, keeping only the state. -/
def applyOp (st : DxfStreamScanner) : ScannerOp → DxfStreamScanner
  | ScannerOp.addChunkOp chunk => (addChunk st chunk).1
  | ScannerOp.finalizeOp => finalize st
  | ScannerOp.nextOp => (next st).2
  | ScannerOp.peekOp => (peek st).2
  | ScannerOp.rewindOp n => rewind st n

/-- `peek` never mutates the scanner: every branch returns the input
state. -/
theorem peek_state (st : DxfStreamScanner) : (peek st).2 = st := by
  unfold peek
  split
  · split
    · rfl
    · split <;> rfl
  · split <;> rfl

set_option maxHeartbeats 1600000 in
/-- The coercion chain of the source agrees pointwise with the range
table worded by the specification. -/
theorem parseGroupValueBody_eq_table (c : Int) (raw : String) (line : Int) :
    parseGroupValueBody c raw line = tableCoerce (claimCategory c) raw line := by
  unfold parseGroupValueBody
  by_cases h1 : c ≤ 9
  · rw [if_pos h1]
    have hc : claimCategory c = Category.str := by
      unfold claimCategory
      split_ifs <;> first | rfl | omega
    rw [hc]
    rfl
  · rw [if_neg h1]
    by_cases h2 : 10 ≤ c ∧ c ≤ 59
    · rw [if_pos h2]
      have hc : claimCategory c = Category.float := by
        unfold claimCategory
        split_ifs <;> first | rfl | omega
      rw [hc]
      rfl
    · rw [if_neg h2]
      by_cases h3 : 60 ≤ c ∧ c ≤ 99
      · rw [if_pos h3]
        have hc : claimCategory c = Category.int := by
          unfold claimCategory
          split_ifs <;> first | rfl | omega
        rw [hc]
        rfl
      · rw [if_neg h3]
        by_cases h4 : 100 ≤ c ∧ c ≤ 109
        · rw [if_pos h4]
          have hc : claimCategory c = Category.str := by
            unfold claimCategory
            split_ifs <;> first | rfl | omega
          rw [hc]
          rfl
        · rw [if_neg h4]
          by_cases h5 : 110 ≤ c ∧ c ≤ 149
          · rw [if_pos h5]
            have hc : claimCategory c = Category.float := by
              unfold claimCategory
              split_ifs <;> first | rfl | omega
            rw [hc]
            rfl
          · rw [if_neg h5]
            by_cases h6 : 160 ≤ c ∧ c ≤ 179
            · rw [if_pos h6]
              have hc : claimCategory c = Category.int := by
                unfold claimCategory
                split_ifs <;> first | rfl | omega
              rw [hc]
              rfl
            · rw [if_neg h6]
              by_cases h7 : 210 ≤ c ∧ c ≤ 239
              · rw [if_pos h7]
                have hc : claimCategory c = Category.float := by
                  unfold claimCategory
                  split_ifs <;> first | rfl | omega
                rw [hc]
                rfl
              · rw [if_neg h7]
                by_cases h8 : 270 ≤ c ∧ c ≤ 289
                · rw [if_pos h8]
                  have hc : claimCategory c = Category.int := by
                    unfold claimCategory
                    split_ifs <;> first | rfl | omega
                  rw [hc]
                  rfl
                · rw [if_neg h8]
                  by_cases h9 : 290 ≤ c ∧ c ≤ 299
                  · rw [if_pos h9]
                    have hc : claimCategory c = Category.bool := by
                      unfold claimCategory
                      split_ifs <;> first | rfl | omega
                    rw [hc]
                    rfl
                  · rw [if_neg h9]
                    by_cases h10 : 300 ≤ c ∧ c ≤ 369
                    · rw [if_pos h10]
                      have hc : claimCategory c = Category.str := by
                        unfold claimCategory
                        split_ifs <;> first | rfl | omega
                      rw [hc]
                      rfl
                    · rw [if_neg h10]
                      by_cases h11 : 370 ≤ c ∧ c ≤ 389
                      · rw [if_pos h11]
                        have hc : claimCategory c = Category.int := by
                          unfold claimCategory
                          split_ifs <;> first | rfl | omega
                        rw [hc]
                        rfl
                      · rw [if_neg h11]
                        by_cases h12 : 390 ≤ c ∧ c ≤ 399
                        · rw [if_pos h12]
                          have hc : claimCategory c = Category.str := by
                            unfold claimCategory
                            split_ifs <;> first | rfl | omega
                          rw [hc]
                          rfl
                        · rw [if_neg h12]
                          by_cases h13 : 400 ≤ c ∧ c ≤ 409
                          · rw [if_pos h13]
                            have hc : claimCategory c = Category.int := by
                              unfold claimCategory
                              split_ifs <;> first | rfl | omega
                            rw [hc]
                            rfl
                          · rw [if_neg h13]
                            by_cases h14 : 410 ≤ c ∧ c ≤ 419
                            · rw [if_pos h14]
                              have hc : claimCategory c = Category.str := by
                                unfold claimCategory
                                split_ifs <;> first | rfl | omega
                              rw [hc]
                              rfl
                            · rw [if_neg h14]
                              by_cases h15 : 420 ≤ c ∧ c ≤ 429
                              · rw [if_pos h15]
                                have hc : claimCategory c = Category.int := by
                                  unfold claimCategory
                                  split_ifs <;> first | rfl | omega
                                rw [hc]
                                rfl
                              · rw [if_neg h15]
                                by_cases h16 : 430 ≤ c ∧ c ≤ 439
                                · rw [if_pos h16]
                                  have hc : claimCategory c = Category.str := by
                                    unfold claimCategory
                                    split_ifs <;> first | rfl | omega
                                  rw [hc]
                                  rfl
                                · rw [if_neg h16]
                                  by_cases h17 : 440 ≤ c ∧ c ≤ 459
                                  · rw [if_pos h17]
                                    have hc : claimCategory c = Category.int := by
                                      unfold claimCategory
                                      split_ifs <;> first | rfl | omega
                                    rw [hc]
                                    rfl
                                  · rw [if_neg h17]
                                    by_cases h18 : 460 ≤ c ∧ c ≤ 469
                                    · rw [if_pos h18]
                                      have hc : claimCategory c = Category.float := by
                                        unfold claimCategory
                                        split_ifs <;> first | rfl | omega
                                      rw [hc]
                                      rfl
                                    · rw [if_neg h18]
                                      by_cases h19 : 470 ≤ c ∧ c ≤ 481
                                      · rw [if_pos h19]
                                        have hc : claimCategory c = Category.str := by
                                          unfold claimCategory
                                          split_ifs <;> first | rfl | omega
                                        rw [hc]
                                        rfl
                                      · rw [if_neg h19]
                                        by_cases h20 : c = 999
                                        · rw [if_pos h20]
                                          have hc : claimCategory c = Category.str := by
                                            unfold claimCategory
                                            split_ifs <;> first | rfl | omega
                                          rw [hc]
                                          rfl
                                        · rw [if_neg h20]
                                          by_cases h21 : 1000 ≤ c ∧ c ≤ 1009
                                          · rw [if_pos h21]
                                            have hc : claimCategory c = Category.str := by
                                              unfold claimCategory
                                              split_ifs <;> first | rfl | omega
                                            rw [hc]
                                            rfl
                                          · rw [if_neg h21]
                                            by_cases h22 : 1010 ≤ c ∧ c ≤ 1059
                                            · rw [if_pos h22]
                                              have hc : claimCategory c = Category.float := by
                                                unfold claimCategory
                                                split_ifs <;> first | rfl | omega
                                              rw [hc]
                                              rfl
                                            · rw [if_neg h22]
                                              by_cases h23 : 1060 ≤ c ∧ c ≤ 1071
                                              · rw [if_pos h23]
                                                have hc : claimCategory c = Category.int := by
                                                  unfold claimCategory
                                                  split_ifs <;> first | rfl | omega
                                                rw [hc]
                                                rfl
                                              · rw [if_neg h23]
                                                have hc : claimCategory c = Category.str := by
                                                  unfold claimCategory
                                                  split_ifs <;> first | rfl | omega
                                                rw [hc]
                                                rfl

/-- On any code, `parseGroupValue` of a real (non-`NaN`) code is the
table coercion at the claimed category. -/
theorem parseGroupValue_some_eq (c : Int) (raw : String) (line : Int) :
    parseGroupValue (some c) raw line = tableCoerce (claimCategory c) raw line :=
  parseGroupValueBody_eq_table c raw line

/-- Inside the boolean range the coercion chain lands on
`parseBoolean`. -/
theorem parseGroupValue_boolean_range (c : Int) (h1 : 290 ≤ c) (h2 : c ≤ 299)
    (str : String) (line : Int) :
    parseGroupValue (some c) str line = parseBoolean str line := by
  have hc : claimCategory c = Category.bool := by
    unfold claimCategory
    split_ifs <;> first | rfl | omega
  rw [parseGroupValue_some_eq, hc]
  rfl

/-- A successful `parseBoolean` does not depend on the line number. -/
theorem parseBoolean_ok_irrel (str : String) (l1 l2 : Int) (v : TypedValue)
    (h : parseBoolean str l1 = Except.ok v) : parseBoolean str l2 = Except.ok v := by
  unfold parseBoolean at h ⊢
  split_ifs at h ⊢ <;> simp_all

/-- A successful coercion does not depend on the line number (the line
number only reaches the error value of the boolean cast). -/
theorem parseGroupValue_ok_irrel (code : Option Int) (raw : String) (l1 l2 : Int)
    (v : TypedValue) (h : parseGroupValue code raw l1 = Except.ok v) :
    parseGroupValue code raw l2 = Except.ok v := by
  cases code with
  | none => simpa using h
  | some c =>
    rw [parseGroupValue_some_eq] at h ⊢
    cases hcat : claimCategory c <;> rw [hcat] at h <;>
      first
        | exact h
        | (unfold tableCoerce at h ⊢
           split_ifs at h ⊢ <;> exact h)

set_option maxHeartbeats 1600000 in
/-- C1 (evidence of the divergence): splitting the input between the
`\r` and the `\n` of a `\r\n` line ending is NOT transparent: feeding
`a\r\nb\n` as the two chunks `a\r` and `\nb\n` leaves the scanner with a
spurious empty completed line that feeding it as one chunk does not
produce, so chunk boundaries do carry semantic meaning in the code. -/
theorem c1_crlf_chunk_split_divergence :
    (finalize (addChunk initialScanner ("a\r\nb\n")).1).lines = ["a", "b"]
    ∧ (finalize (addChunk (addChunk initialScanner ("a\r")).1 ("\nb\n")).1).lines
        = ["a", "", "b"]
    ∧ ¬ ((finalize (addChunk (addChunk initialScanner ("a\r")).1 ("\nb\n")).1).lines
        = (finalize (addChunk initialScanner ("a\r\nb\n")).1).lines) := by
  decide

set_option maxHeartbeats 1600000 in
/-- C2 counterexample: value coercion is not total as claimed: at code
290 (a boolean-range code) the raw string `x` makes `parseGroupValue`
fail instead of returning a boolean. -/
theorem c2_counterexample :
    parseGroupValue (some 290) ("x") 0
      = Except.error (DxfError.parseError (booleanCastMessage ("x")) (some 0) none none)
    ∧ (parseGroupValue (some 290) ("x") 0).isOk = false := by
  decide

/-- C2 (amended): the coercion chain of `parseGroupValue` agrees with
the claimed range table everywhere: the category of the result is a
function of the code alone, strings pass through unchanged, and the
boolean range succeeds exactly on the literals `0` and `1`; a `NaN`
code falls through to the string default. -/
theorem c2_range_table (c : Int) (raw : String) (line : Int) :
    parseGroupValue (some c) raw line = tableCoerce (claimCategory c) raw line
    ∧ parseGroupValue none raw line = Except.ok (TypedValue.str raw) := by
  constructor
  · exact parseGroupValue_some_eq c raw line
  · rfl

set_option maxHeartbeats 1600000 in
/-- C3 counterexample: an invalid boolean literal at code 290 raises a
`DxfParseError` (message and line number only), not a `DxfValueError`
carrying `code` and `rawValue` fields. -/
theorem c3_counterexample :
    parseGroupValue (some 290) ("invalid") 7
      = Except.error (DxfError.parseError (booleanCastMessage ("invalid")) (some 7) none none)
    ∧ DxfError.isValue
        (DxfError.parseError (booleanCastMessage ("invalid")) (some 7) none none) = false := by
  decide

/-- C3 (amended): for every code in 290-299, coercion maps exactly the
literal `0` to false and `1` to true, and any other literal fails with a
`DxfParseError` whose message embeds the raw literal and which carries
the current line number; the error is never a `DxfValueError`. -/
theorem c3_boolean_coercion (c : Int) (h1 : 290 ≤ c) (h2 : c ≤ 299)
    (str : String) (line : Int) :
    parseGroupValue (some c) str line =
      (if str = "0" then Except.ok (TypedValue.bool false)
       else if str = "1" then Except.ok (TypedValue.bool true)
       else Except.error
         (DxfError.parseError (booleanCastMessage str) (some line) none none))
    ∧ ∀ e, parseGroupValue (some c) str line = Except.error e →
        DxfError.isValue e = false := by
  have hb : parseGroupValue (some c) str line = parseBoolean str line :=
    parseGroupValue_boolean_range c h1 h2 str line
  constructor
  · rw [hb]
    unfold parseBoolean
    rfl
  · intro e he
    rw [hb] at he
    unfold parseBoolean at he
    split_ifs at he
    injection he with h
    subst h
    rfl

set_option maxHeartbeats 1600000 in
/-- C3 witness: the amended boolean-coercion theorem at code 295, raw
literal `maybe`, line 4. -/
theorem c3_witness :
    parseGroupValue (some 295) ("maybe") 4
      = Except.error (DxfError.parseError (booleanCastMessage ("maybe")) (some 4) none none) := by
  have h := (c3_boolean_coercion 295 (by omega) (by omega) ("maybe") 4).1
  rw [h]
  decide

/-- Inversion of a successful `next`: the availability check passed, the
value line existed and coerced, and the state advanced by two with the
EOF flag recomputed and the group recorded. -/
theorem next_ok_inversion (st : DxfStreamScanner) (g : IGroup)
    (h : (next st).1 = Except.ok g) :
    ∃ vl, hasNext st = true
      ∧ jsIndex st.lines (st.pointer + 1) = some vl
      ∧ jsParseIntAt st.lines st.pointer = g.code
      ∧ parseGroupValue g.code (jsTrim vl) (st.lineNumber + 1) = Except.ok g.value
      ∧ next st = (Except.ok g,
          { st with
            pointer := st.pointer + 2
            lineNumber := st.lineNumber + 2
            eof := if g.code = some 0 ∧ g.value = TypedValue.str ("EOF") then true
              else st.eof
            lastReadGroup := some g }) := by
  by_cases hH : hasNext st = true
  · rcases hvl : jsIndex st.lines (st.pointer + 1) with _ | vl
    · exfalso
      simp [next, hH, hvl] at h
    · rcases hok : parseGroupValue (jsParseIntAt st.lines st.pointer) (jsTrim vl)
          (st.lineNumber + 1) with e | v
      · exfalso
        simp [next, hH, hvl, hok] at h
      · have hg : g = { code := jsParseIntAt st.lines st.pointer, value := v } := by
          have := h
          simp [next, hH, hvl, hok] at this
          exact this.symm
        refine ⟨vl, hH, rfl, ?_, ?_, ?_⟩
        · rw [hg]
        · rw [hg]
          exact hok
        · simp [next, hH, hvl, hok, hg]
  · exfalso
    rcases Bool.eq_false_or_eq_true st.eof with he | he <;>
      simp [next, hH, he] at h

/-- When `next` does not succeed, the availability / EOF failure paths
leave an error of the parse kind with the documented messages. -/
theorem c4_counterexample :
    (next initialScanner).1 = Except.error
      (DxfError.parseError transientMessage (some 0) none none)
    ∧ DxfError.isScanner
        (DxfError.parseError transientMessage (some 0) none none) = false := by
  decide

/-- C4 (amended): with fewer than two unread lines and EOF unread, both
`next` and `peek` fail with a `DxfParseError` (not a scanner-kind error)
with the transient message; after the EOF group both fail with distinct
terminal `DxfParseError` messages that tell `next` apart from `peek`. -/
theorem c4_error_discipline (st : DxfStreamScanner) :
    (hasNext st = false → st.eof = false →
      (next st).1 = Except.error
        (DxfError.parseError transientMessage (some st.lineNumber) none none)
      ∧ (peek st).1 = Except.error
        (DxfError.parseError transientMessage (some st.lineNumber) none none))
    ∧ (st.eof = true →
      (next st).1 = Except.error
        (DxfError.parseError nextAfterEofMessage (some st.lineNumber) none none)
      ∧ (peek st).1 = Except.error
        (DxfError.parseError peekAfterEofMessage (some st.lineNumber) none none))
    ∧ ¬ (nextAfterEofMessage = peekAfterEofMessage) := by
  refine ⟨?_, ?_, by decide⟩
  · intro h2 h1
    constructor <;> simp [next, peek, h1, h2]
  · intro h1
    have h2 : hasNext st = false := by simp [hasNext, h1]
    constructor <;> simp [next, peek, h1, h2]

/-- C4 witness: the amended theorem applied to the fresh scanner (no
lines buffered) and to a scanner whose EOF flag is set. -/
theorem c4_witness :
    (next initialScanner).1 = Except.error
      (DxfError.parseError transientMessage (some 0) none none)
    ∧ (peek { initialScanner with eof := true }).1 = Except.error
      (DxfError.parseError peekAfterEofMessage (some 0) none none) := by
  constructor
  · exact ((c4_error_discipline initialScanner).1 (by decide) (by decide)).1
  · exact ((c4_error_discipline { initialScanner with eof := true }).2.1 (by decide)).2

/-- C5 counterexample: rewinding the fresh scanner by one group drives
the pointer to `-2`: the pointer is NOT clamped at zero (only the line
counter is). -/
theorem c5_counterexample :
    (rewind initialScanner 1).pointer = -2
    ∧ ¬ ((rewind initialScanner 1).pointer = 0)
    ∧ (rewind initialScanner 1).lineNumber = 0 := by
  decide

/-- C5 (amended): `rewind n` moves the pointer back by exactly `2n` with
no clamping (it may go negative), moves the line counter back by `2n`
clamped at zero, and no other operation decreases pointer or line
counter (`peek` leaves the state untouched entirely). -/
theorem c5_rewind_exact (st : DxfStreamScanner) (n : Int) (chunk : String) :
    (rewind st n).pointer = st.pointer - n * 2
    ∧ (rewind st n).lineNumber
        = (if st.lineNumber - n * 2 < 0 then 0 else st.lineNumber - n * 2)
    ∧ st.pointer ≤ ((addChunk st chunk).1).pointer
    ∧ st.lineNumber ≤ ((addChunk st chunk).1).lineNumber
    ∧ st.pointer ≤ (finalize st).pointer
    ∧ st.lineNumber ≤ (finalize st).lineNumber
    ∧ st.pointer ≤ ((next st).2).pointer
    ∧ st.lineNumber ≤ ((next st).2).lineNumber
    ∧ (peek st).2 = st := by
  refine ⟨rfl, rfl, le_refl _, le_refl _, ?_, ?_, ?_, ?_, peek_state st⟩
  · unfold finalize
    split <;> simp
  · unfold finalize
    split <;> simp
  · unfold next
    split
    · split
      · simp
      · split <;> simp
    · split <;> simp
  · unfold next
    split
    · split
      · simp
      · split <;> simp
    · split <;> simp

/-- C6: EOF permanence: with the EOF flag set, `isEOF` stays true,
`hasNext` is false, every operation preserves the flag, and `next` and
`peek` fail with the terminal errors even when more lines are buffered;
and reading the `(0, EOF)` group is exactly what sets the flag. -/
theorem c6_eof_permanent (st : DxfStreamScanner) (op : ScannerOp) (g : IGroup) :
    (st.eof = true →
      isEOF st = true
      ∧ hasNext st = false
      ∧ (applyOp st op).eof = true
      ∧ (next st).1 = Except.error
          (DxfError.parseError nextAfterEofMessage (some st.lineNumber) none none)
      ∧ (peek st).1 = Except.error
          (DxfError.parseError peekAfterEofMessage (some st.lineNumber) none none))
    ∧ ((next st).1 = Except.ok g → g.code = some 0 →
        g.value = TypedValue.str ("EOF") → ((next st).2).eof = true) := by
  constructor
  · intro h1
    have h2 : hasNext st = false := by simp [hasNext, h1]
    refine ⟨h1, h2, ?_, ?_, ?_⟩
    · cases op with
      | addChunkOp chunk => exact h1
      | finalizeOp =>
        show (finalize st).eof = true
        unfold finalize
        split <;> exact h1
      | nextOp =>
        show ((next st).2).eof = true
        simp [next, h1, h2]
      | peekOp =>
        show ((peek st).2).eof = true
        rw [peek_state st]
        exact h1
      | rewindOp n => exact h1
    · simp [next, h1, h2]
    · simp [peek, h1, h2]
  · intro hok hc hv
    obtain ⟨vl, hH, hvl, hcode, hval, hnext⟩ := next_ok_inversion st g hok
    rw [hnext]
    simp [hc, hv]

/-- C6 witness: a scanner whose EOF flag is set while two complete lines
are still buffered yields no further group, and reading `(0, EOF)` from
a live scanner sets the flag. -/
theorem c6_witness :
    ((applyOp { initialScanner with eof := true, lines := ["10", "20"] }
        (ScannerOp.addChunkOp ("30\n40\n"))).eof = true)
    ∧ (next { initialScanner with eof := true, lines := ["10", "20"] }).1
        = Except.error
          (DxfError.parseError nextAfterEofMessage (some 0) none none)
    ∧ ((next { initialScanner with lines := ["0", "EOF"] }).2).eof = true := by
  refine ⟨?_, ?_, ?_⟩
  · exact (((c6_eof_permanent
      { initialScanner with eof := true, lines := ["10", "20"] }
      (ScannerOp.addChunkOp ("30\n40\n"))
      { code := some 0, value := TypedValue.str ("EOF") }).1 rfl).2.2).1
  · exact (((c6_eof_permanent
      { initialScanner with eof := true, lines := ["10", "20"] }
      (ScannerOp.addChunkOp ("30\n40\n"))
      { code := some 0, value := TypedValue.str ("EOF") }).1 rfl).2.2).2.1
  · exact (c6_eof_permanent { initialScanner with lines := ["0", "EOF"] }
      ScannerOp.finalizeOp
      { code := some 0, value := TypedValue.str ("EOF") }).2
      (by decide) (by decide) (by decide)

set_option maxHeartbeats 1600000 in
/-- C7 counterexample: with lines `290` / `x` buffered, a complete group
is available (`hasNext` is true, EOF unread), yet `peek` does not return
a group: the boolean coercion failure makes it throw. -/
theorem c7_counterexample :
    hasNext { initialScanner with lines := ["290", "x"] } = true
    ∧ (peek { initialScanner with lines := ["290", "x"] }).1
        = Except.error
          (DxfError.parseError (booleanCastMessage ("x")) (some 0) none none) := by
  decide

/-- C7 (amended): `peek` never changes the scanner state (pointer, line
counter, EOF flag, buffer or lines), and whenever `peek` does return a
group, an immediately following `next` returns the same group. -/
theorem c7_peek_frame_agreement (st : DxfStreamScanner) (g : IGroup) :
    (peek st).2 = st
    ∧ ((peek st).1 = Except.ok g → (next st).1 = Except.ok g) := by
  refine ⟨peek_state st, ?_⟩
  intro h
  by_cases hH : hasNext st = true
  · rcases hvl : jsIndex st.lines (st.pointer + 1) with _ | vl
    · exfalso
      simp [peek, hH, hvl] at h
    · rcases hok : parseGroupValue (jsParseIntAt st.lines st.pointer) (jsTrim vl)
          st.lineNumber with e | v
      · exfalso
        simp [peek, hH, hvl, hok] at h
      · have hg : g = { code := jsParseIntAt st.lines st.pointer, value := v } := by
          have hx := h
          simp [peek, hH, hvl, hok] at hx
          exact hx.symm
        have hok2 : parseGroupValue (jsParseIntAt st.lines st.pointer) (jsTrim vl)
            (st.lineNumber + 1) = Except.ok v :=
          parseGroupValue_ok_irrel _ _ _ _ _ hok
        simp [next, hH, hvl, hok2, hg]
  · exfalso
    rcases Bool.eq_false_or_eq_true st.eof with he | he <;>
      simp [peek, hH, he] at h

set_option maxHeartbeats 1600000 in
/-- C7 witness: the frame-and-agreement theorem on a scanner holding the
group `(0, SECTION)`. -/
theorem c7_witness :
    (peek { initialScanner with lines := ["0", "SECTION"] }).2
        = { initialScanner with lines := ["0", "SECTION"] }
    ∧ (next { initialScanner with lines := ["0", "SECTION"] }).1
        = Except.ok { code := some 0, value := TypedValue.str ("SECTION") } := by
  constructor
  · exact (c7_peek_frame_agreement
      { initialScanner with lines := ["0", "SECTION"] }
      { code := some 0, value := TypedValue.str ("SECTION") }).1
  · exact (c7_peek_frame_agreement
      { initialScanner with lines := ["0", "SECTION"] }
      { code := some 0, value := TypedValue.str ("SECTION") }).2 (by decide)

set_option maxHeartbeats 1600000 in
/-- C8 counterexample: after reading the `(0, EOF)` group, `rewind 1`
does restore the pointer, but the EOF flag stays set, so the following
`next` fails instead of reproducing the group. -/
theorem c8_counterexample :
    (next { initialScanner with lines := ["0", "EOF"] }).1
      = Except.ok { code := some 0, value := TypedValue.str ("EOF") }
    ∧ (next (rewind (next { initialScanner with lines := ["0", "EOF"] }).2 1)).1
      = Except.error
        (DxfError.parseError nextAfterEofMessage (some 0) none none) := by
  decide

/-- C8 (amended): if `next` succeeds on a reachable state (line counter
not negative) and the group read is not the EOF marker, `rewind 1`
restores the cursor so that the following `next` returns the same group
and reaches the same pointer, line number and state as the original
call. -/
theorem c8_rewind_replay (st : DxfStreamScanner) (g : IGroup)
    (h0 : 0 ≤ st.lineNumber)
    (h : (next st).1 = Except.ok g)
    (hg : ¬(g.code = some 0 ∧ g.value = TypedValue.str ("EOF"))) :
    next (rewind (next st).2 1) = (Except.ok g, (next st).2) := by
  obtain ⟨buf, ls, p, e, ln, lg⟩ := st
  obtain ⟨gc, gv⟩ := g
  obtain ⟨vl, hH, hvl, hcode, hval, hnext⟩ := next_ok_inversion _ _ h
  have hef : e = false := by
    rcases Bool.eq_false_or_eq_true e with he | he
    · exfalso
      simp [hasNext, he] at hH
    · exact he
  subst hef
  have h0n : (0 : Int) ≤ ln := h0
  have hg2 : ¬(gc = some 0 ∧ gv = TypedValue.str ("EOF")) := hg
  rw [hnext]
  show next (rewind
      { buffer := buf
        lines := ls
        pointer := p + 2
        eof := if gc = some 0 ∧ gv = TypedValue.str ("EOF") then true else false
        lineNumber := ln + 2
        lastReadGroup := some { code := gc, value := gv } } 1)
    = (Except.ok { code := gc, value := gv },
       { buffer := buf
         lines := ls
         pointer := p + 2
         eof := if gc = some 0 ∧ gv = TypedValue.str ("EOF") then true else false
         lineNumber := ln + 2
         lastReadGroup := some { code := gc, value := gv } })
  rw [if_neg hg2]
  unfold rewind
  dsimp only
  have e1 : p + 2 - 1 * 2 = p := by omega
  have e2 : ln + 2 - 1 * 2 = ln := by omega
  simp only [e1, e2]
  rw [if_neg (by omega : ¬ ln < 0)]
  have hH2 : hasNext
      { buffer := buf, lines := ls, pointer := p, eof := false,
        lineNumber := ln, lastReadGroup := some { code := gc, value := gv } }
      = true := by
    simpa [hasNext] using hH
  have hvl2 : jsIndex ls (p + 1) = some vl := hvl
  have hcode2 : jsParseIntAt ls p = gc := hcode
  have hval2 : parseGroupValue gc (jsTrim vl) (ln + 1) = Except.ok gv := hval
  simp [next, hH2, hvl2, hcode2, hval2, hg2]

/-- C8 witness: the replay theorem on a scanner holding the non-EOF
group `(0, SECTION)`. -/
theorem c8_witness :
    next (rewind (next { initialScanner with lines := ["0", "SECTION"] }).2 1)
      = (Except.ok { code := some 0, value := TypedValue.str ("SECTION") },
         (next { initialScanner with lines := ["0", "SECTION"] }).2) := by
  exact c8_rewind_replay { initialScanner with lines := ["0", "SECTION"] }
    { code := some 0, value := TypedValue.str ("SECTION") }
    (by decide) (by decide) (by decide)

/-- C10: `next` is not atomic on value-coercion failure: if a complete
group was available but `next` returns an error, the pointer and line
counter have advanced by exactly one (past the code line, onto the value
line) and nothing else changed — the cursor is left mid-group. -/
theorem c10_mid_group_cursor (st : DxfStreamScanner) (e : DxfError)
    (hH : hasNext st = true) (h : (next st).1 = Except.error e) :
    ((next st).2).pointer = st.pointer + 1
    ∧ ((next st).2).lineNumber = st.lineNumber + 1
    ∧ ((next st).2).lines = st.lines
    ∧ ((next st).2).eof = st.eof
    ∧ ((next st).2).lastReadGroup = st.lastReadGroup := by
  rcases hvl : jsIndex st.lines (st.pointer + 1) with _ | vl
  · simp [next, hH, hvl]
  · rcases hok : parseGroupValue (jsParseIntAt st.lines st.pointer) (jsTrim vl)
        (st.lineNumber + 1) with e2 | v
    · simp [next, hH, hvl, hok]
    · exfalso
      simp [next, hH, hvl, hok] at h

set_option maxHeartbeats 1600000 in
/-- C10 witness: the mid-group theorem on the scanner holding `290` /
`x`: after the failing `next`, the pointer and line counter sit at 1. -/
theorem c10_witness :
    ((next { initialScanner with lines := ["290", "x"] }).2).pointer = 1
    ∧ ((next { initialScanner with lines := ["290", "x"] }).2).lineNumber = 1 := by
  have h := c10_mid_group_cursor { initialScanner with lines := ["290", "x"] }
    (DxfError.parseError (booleanCastMessage ("x")) (some 1) none none)
    (by decide) (by decide)
  exact ⟨h.1, h.2.1⟩

/-- Once the promise of a streaming parse is settled, no later stream
event changes the settlement (resolve/reject are first-call-wins). -/
theorem settled_persists
    (parseFn : DxfStreamScanner → Except DxfError DxfStreamScanner)
    (fuel : Nat) (events : List StreamEvent) (ps : PromiseState) (s : Settlement)
    (h : ps.settled = some s) :
    (events.foldl (handleEvent parseFn fuel) ps).settled = some s := by
  induction events generalizing ps with
  | nil => simpa using h
  | cons ev rest ih =>
    rw [List.foldl_cons]
    apply ih
    cases ev with
    | data chunk =>
      show (handleEvent parseFn fuel ps (StreamEvent.data chunk)).settled = some s
      simp only [handleEvent]
      split <;> simp [settleReject, h]
    | ended =>
      show (handleEvent parseFn fuel ps StreamEvent.ended).settled = some s
      simp only [handleEvent]
      split <;> simp [settleReject, settleResolve, h]
    | errored m =>
      show (handleEvent parseFn fuel ps (StreamEvent.errored m)).settled = some s
      simp only [handleEvent]
      simp [settleReject, h]

/-- C9: when the underlying stream raises an error while the incremental
parse is still unsettled, the promise is rejected with a `DxfParseError`
whose message is `Stream error` and whose cause carries the transport
message, no matter what events follow; the parse never resolves. -/
theorem c9_stream_error_rejects
    (parseFn : DxfStreamScanner → Except DxfError DxfStreamScanner)
    (fuel : Nat) (pre rest : List StreamEvent) (m : String)
    (h : (parseStreamIncremental parseFn fuel pre).settled = none) :
    (parseStreamIncremental parseFn fuel
        (pre ++ StreamEvent.errored m :: rest)).settled
      = some (Settlement.rejected
          (DxfError.parseError ("Stream error") none none (some m)))
    ∧ (parseStreamIncremental parseFn fuel
        (pre ++ StreamEvent.errored m :: rest)).settled
      ≠ some Settlement.resolved := by
  have key : (parseStreamIncremental parseFn fuel
      (pre ++ StreamEvent.errored m :: rest)).settled
      = some (Settlement.rejected
          (DxfError.parseError ("Stream error") none none (some m))) := by
    unfold parseStreamIncremental at h ⊢
    rw [List.foldl_append, List.foldl_cons]
    apply settled_persists
    show (handleEvent parseFn fuel _ (StreamEvent.errored m)).settled = _
    simp only [handleEvent]
    simp [settleReject, h]
  refine ⟨key, ?_⟩
  rw [key]
  simp

/-- A sample parse step for the C9 witness: consume one group. -/
def demoParseFn (st : DxfStreamScanner) : Except DxfError DxfStreamScanner :=
  match next st with
  | (Except.ok _, st2) => Except.ok st2
  | (Except.error e, _) => Except.error e

set_option maxHeartbeats 1600000 in
/-- C9 witness: a data chunk that parses cleanly followed by a transport
error leaves the promise rejected with the wrapped stream error. -/
theorem c9_witness :
    (parseStreamIncremental demoParseFn 8
      ([StreamEvent.data ("0\nSECTION\n")] ++ StreamEvent.errored ("boom") :: [])).settled
      = some (Settlement.rejected
          (DxfError.parseError ("Stream error") none none (some ("boom")))) := by
  exact (c9_stream_error_rejects demoParseFn 8 [StreamEvent.data ("0\nSECTION\n")] []
    ("boom") (by decide)).1
